import Mathlib

/-!
Verification of the tunnel-and-relay subsystem of the chanoe/cli repository
(Go package `kubernetes`): the `PortForward` tunnel session and the two relay
entry points built on it, `InvokeByPortForward` (one-shot HTTP-style invoke)
and `WebsocketByPortForward` (persistent streaming relay).

The Go code is shallowly embedded: channels become an explicit closed/open
state, the asynchronous ready-versus-failure race inside `Init` becomes an
explicit event parameter saying which channel the `select` received first,
and the external collaborators (kube config acquisition, pod resolution, the
spdy transport, the HTTP client, the websocket connection) become inputs
that enumerate their possible outcomes.  Every function follows the Go
source line by line; observable side effects that the claims mention
(whether `Stop()` ran, whether a session was ever constructed, which frames
were sent or surfaced) are returned in explicit trace fields.
-/

namespace TkeelCli

/-- Go `error` values, modelled by their message string; `fmt.Errorf("lbl: %w", e)`
and `errors.Wrap(e, "lbl")` both render as the label, a colon-space, then `e`. -/
abbrev GoErr := String

/-- Go byte slices and Go strings alike are byte sequences; `string(b)` is the
identity on the underlying bytes, so both sides are modelled as `List UInt8`. -/
abbrev Bytes := List UInt8

/-- State of a Go channel as far as `close` is concerned: whether `close` has
already been called on it. -/
structure GoChan where
  closed : Bool
deriving DecidableEq, Repr

/-- Result of Go `close(ch)`: Go's runtime panics when closing an
already-closed channel, otherwise the channel becomes closed. -/
inductive CloseResult where
  | ok (c : GoChan)
  | panicked
deriving DecidableEq, Repr

/-- Go `close(ch)` on the modelled channel state. -/
def GoChan.close (c : GoChan) : CloseResult :=
  if c.closed then .panicked else .ok ⟨true⟩

/-- Pod run-state, mirroring `core_v1.PodPhase` values the code compares against. -/
inductive PodPhase where
  | Running
  | Pending
  | Succeeded
  | Failed
  | Unknown
deriving DecidableEq, Repr

/-- Modelled from the spec: `AppPod` is produced by the external workload
resolver (`GetAppPod`, not part of the files under verification).  Only the
fields this subsystem reads are modelled: identifier, namespace, pod name,
the HTTP-style service port, the application port, and the pod's run phase
(read as `app.pod.Status.Phase`). -/
structure AppPod where
  AppID : String
  Namespace : String
  PodName : String
  HTTPPort : Int
  AppPort : Int
  phase : PodPhase
deriving DecidableEq, Repr

/-- The `PortForward` session struct.  The request `URL` built from the pod
coordinates is kept as the namespace/pod-name pair it is derived from; the
`Config` handle is opaque to every claim and omitted. -/
structure PortForward where
  Method : String
  Namespace : String
  PodName : String
  Host : String
  LocalPort : Int
  RemotePort : Int
  EmitLogs : Bool
  StopCh : GoChan
deriving DecidableEq, Repr

/-- Result of a `(*PortForward) Stop()` call: the updated session, or a
runtime panic. -/
inductive StopResult where
  | ok (pf : PortForward)
  | panicked
deriving DecidableEq, Repr

/-- Go `func (pf *PortForward) Stop() { close(pf.StopCh) }`. -/
def PortForward.Stop (pf : PortForward) : StopResult :=
  match pf.StopCh.close with
  | .ok c => .ok { pf with StopCh := c }
  | .panicked => .panicked

/-- Go `NewPortForward`: the k8s client construction (`k8s.NewForConfig`) is
external and may fail, which is the `clientErr` input; on success the struct
is built with `Method: "POST"`, a fresh open stop channel and a fresh ready
channel, carrying the requested ports verbatim. -/
def NewPortForward (clientErr : Option GoErr) (ns podName host : String)
    (localPort remotePort : Int) (emitLogs : Bool) : Except GoErr PortForward :=
  match clientErr with
  | some e => .error ("error get k8s client: " ++ e)
  | none => .ok
      { Method := "POST", Namespace := ns, PodName := podName, Host := host,
        LocalPort := localPort, RemotePort := remotePort,
        EmitLogs := emitLogs, StopCh := ⟨false⟩ }

/-- Result of `fw.GetPorts()` after readiness: the bound local/remote port
pair (uint16 values from the forwarder, converted to `int`), or an error. -/
inductive GetPortsResult where
  | ok (localPort remotePort : Int)
  | err (e : GoErr)
deriving DecidableEq, Repr

/-- Which event the `select` inside `Init` receives first: the ready channel
(carrying what the subsequent `fw.GetPorts()` call will report), or an error
sent on the failure channel by the `fw.ForwardPorts()` goroutine. -/
inductive ForwardEvent where
  | ready (ports : GetPortsResult)
  | failure (e : GoErr)
deriving DecidableEq, Repr

/-- Modelled from the spec: the external forwarder closes the ready channel
only after its listeners are bound, so when `Init`'s select receives from the
failure channel the ready signal has not fired. -/
def ForwardEvent.readyFired : ForwardEvent → Bool
  | .ready _ => true
  | .failure _ => false

/-- Environment of one `Init()` call: the two construction stages that can
fail before the forwarding goroutine starts (`spdy.RoundTripperFor`,
`portforward.NewOnAddresses`), or the race outcome once it runs. -/
inductive InitEnv where
  | spdyErr (e : GoErr)
  | fwErr (e : GoErr)
  | run (ev : ForwardEvent)
deriving DecidableEq, Repr

/-- Whether this environment makes `Init` return a non-nil error. -/
def InitEnv.fails : InitEnv → Bool
  | .spdyErr _ => true
  | .fwErr _ => true
  | .run (.ready _) => false
  | .run (.failure _) => true

/-- Go `(*PortForward) Init()`.  Construction-stage errors are wrapped and
returned.  Otherwise the select races the ready channel against the failure
channel: on ready, `fw.GetPorts()` is read back and, only if that read
succeeds, the bound ports are stored into the session; `Init` then returns
nil either way.  On failure, the error is returned unwrapped and the session
is left untouched. -/
def PortForward.Init (pf : PortForward) (env : InitEnv) : PortForward × Option GoErr :=
  match env with
  | .spdyErr e => (pf, some ("error creat spdy round tripper: " ++ e))
  | .fwErr e => (pf, some ("error creat portforward: " ++ e))
  | .run (.ready (.ok lp rp)) => ({ pf with LocalPort := lp, RemotePort := rp }, none)
  | .run (.ready (.err _)) => (pf, none)
  | .run (.failure e) => (pf, some e)

/-- Go `makeEndpoint`: the HTTP relay target URL.  The api version string is
`api.RuntimeAPIVersion` from an external package, so it is a parameter; the
local port is rendered in decimal by the inner `fmt.Sprintf("%v", ...)`. -/
def makeEndpoint (apiVersion : String) (app : AppPod) (pf : PortForward)
    (method : String) : String :=
  "http://127.0.0.1:" ++ toString pf.LocalPort ++ "/v" ++ apiVersion ++
    "/invoke/" ++ app.AppID ++ "/method/" ++ method

/-- Go `makeWsEndpoint`: the websocket relay target URL. -/
def makeWsEndpoint (pf : PortForward) (method : String) : String :=
  "ws://127.0.0.1:" ++ toString pf.LocalPort ++ "/" ++ method

/-- Modelled from the spec: the wire-format contract for the HTTP relay
target, written from the spec's words
`http://127.0.0.1:<local-port>/v<api-version>/invoke/<app-id>/method/<method>`. -/
def specHttpTarget (localPort : Int) (apiVersion appID method : String) : String :=
  "http://127.0.0.1:" ++ toString localPort ++ "/v" ++ apiVersion ++
    "/invoke/" ++ appID ++ "/method/" ++ method

/-- Modelled from the spec: the wire-format contract for the stream relay
target, written from the spec's words `ws://127.0.0.1:<local-port>/<method>`. -/
def specWsTarget (localPort : Int) (method : String) : String :=
  "ws://127.0.0.1:" ++ toString localPort ++ "/" ++ method

/-- Go `handleResponse`: reads the response body (the read may fail, which is
the input's error case), and returns the bytes as a string when non-empty,
the empty string otherwise — never an error for a successfully read body. -/
def handleResponse (bodyRead : Except GoErr Bytes) : Except GoErr Bytes :=
  match bodyRead with
  | .error e => .error ("error read http response: " ++ e)
  | .ok rb => if rb.length > 0 then .ok rb else .ok []

/-- Go `invoke` (the direct in-cluster variant): `app.Request` may fail, then
`result.Raw()` may fail, then the raw body is returned as a string when
non-empty, the empty string otherwise. -/
def invoke (requestRes : Except GoErr Unit) (rawRes : Except GoErr Bytes) :
    Except GoErr Bytes :=
  match requestRes with
  | .error e => .error ("error get request: " ++ e)
  | .ok _ =>
    match rawRes with
    | .error e => .error ("error get raw: " ++ e)
    | .ok rawbody => if rawbody.length > 0 then .ok rawbody else .ok []

/-- Constant `websocket.TextMessage` of the gorilla/websocket package. -/
def TextMessage : Int := 1

/-- Constant `websocket.BinaryMessage` of the gorilla/websocket package. -/
def BinaryMessage : Int := 2

/-- Constant `websocket.CloseMessage` of the gorilla/websocket package. -/
def CloseMessage : Int := 8

/-- Constant `websocket.PingMessage` of the gorilla/websocket package. -/
def PingMessage : Int := 9

/-- Constant `websocket.PongMessage` of the gorilla/websocket package. -/
def PongMessage : Int := 10

/-- Data surfaced by the receive loop: a text frame's payload printed as a
string, or a binary frame's payload printed as raw bytes. -/
inductive Surfaced where
  | text (data : Bytes)
  | binary (data : Bytes)
deriving DecidableEq, Repr

/-- One outbound frame written with `connect.WriteMessage`. -/
structure SentFrame where
  messageType : Int
  data : Bytes
deriving DecidableEq, Repr

/-- One result of `connect.ReadMessage()`: a (messageType, data) pair, or a
read error. -/
abbrev ReadResult := Except GoErr (Int × Bytes)

/-- The `switch messageType` body of the receive loop: text and binary frames
are surfaced (as string resp. raw bytes); close, ping and pong frames, and
any unrecognized kind, fall through without surfacing data. -/
def classifyFrame (messageType : Int) (messageData : Bytes) : Option Surfaced :=
  if messageType = TextMessage then some (.text messageData)
  else if messageType = BinaryMessage then some (.binary messageData)
  else if messageType = CloseMessage then none
  else if messageType = PingMessage then none
  else if messageType = PongMessage then none
  else none

/-- The unbounded `for` receive loop of `WebsocketByPortForward`, driven by
the sequence of read results the connection yields.  First component: the
data surfaced so far.  Second component: `some e` when a read failed, in
which case the loop executed `return "", errors.Wrap(err, "websocket read
error")`; `none` when every read in the trace succeeded, meaning the loop is
still blocked on the next `ReadMessage` and has not returned. -/
def wsReceiveLoop : List ReadResult → List Surfaced × Option GoErr
  | [] => ([], none)
  | .error e :: _ => ([], some ("websocket read error: " ++ e))
  | .ok (mt, md) :: rest =>
      ((classifyFrame mt md).toList ++ (wsReceiveLoop rest).1, (wsReceiveLoop rest).2)

/-- The successfully read (messageType, data) pairs before the first read
error of a trace. -/
def okFrames : List ReadResult → List (Int × Bytes)
  | [] => []
  | .ok f :: rest => f :: okFrames rest
  | .error _ :: _ => []

/-- Outcome of one call of a relay entry point: the Go function returned a
(body, error) pair, or it is still blocked inside the receive loop. -/
inductive FnOutcome where
  | returned (body : Bytes) (err : Option GoErr)
  | blocked
deriving DecidableEq, Repr

/-- Observable trace of one `WebsocketByPortForward` call: how the call
ended, the outbound frames written, the inbound data surfaced, and whether
`portForward.Stop()` ran (via the deferred call inside the Init-success
block). -/
structure WsTrace where
  outcome : FnOutcome
  sent : List SentFrame
  surfaced : List Surfaced
  stopCalled : Bool
deriving DecidableEq, Repr

/-- Lines of `WebsocketByPortForward` after a successful `Dial`: write one
text frame carrying the caller payload, then enter the receive loop.  A write
error returns wrapped; a loop read error returns wrapped (the deferred
`Stop()` having run on every return path); an error-free read trace leaves
the call blocked in the loop. -/
def wsAfterConnect (data : Bytes) (writeRes : Option GoErr)
    (reads : List ReadResult) : WsTrace :=
  match writeRes with
  | some e =>
      ⟨.returned [] (some ("websocket write error: " ++ e)),
        [⟨TextMessage, data⟩], [], true⟩
  | none =>
      match (wsReceiveLoop reads).2 with
      | some e => ⟨.returned [] (some e), [⟨TextMessage, data⟩], (wsReceiveLoop reads).1, true⟩
      | none => ⟨.blocked, [⟨TextMessage, data⟩], (wsReceiveLoop reads).1, false⟩

/-- Go `getPortforward`: acquire the kube config, resolve the pod, reject a
pod that is not in the running phase, then construct the session with
requested local port 0 and the pod's application port.  The second component
records whether `NewPortForward` was ever reached (a session constructed). -/
def getPortforward (pluginID : String) (kube : Option GoErr)
    (resolve : Except GoErr AppPod) (clientErr : Option GoErr) :
    Except GoErr PortForward × Bool :=
  match kube with
  | some e => (.error ("get kube config error: " ++ e), false)
  | none =>
    match resolve with
    | .error e => (.error e, false)
    | .ok app =>
      if app.phase = PodPhase.Running then
        (NewPortForward clientErr app.Namespace app.PodName "127.0.0.1" 0 app.AppPort false, true)
      else
        (.error ("no running pods found for " ++ pluginID), false)

/-- Outcome of the HTTP request phase of `InvokeByPortForward`:
`http.NewRequest` fails, `httpc.Do` fails, or a response arrives whose body
read is the given result. -/
inductive HttpOutcome where
  | reqErr (e : GoErr)
  | doErr (e : GoErr)
  | resp (bodyRead : Except GoErr Bytes)
deriving Repr

/-- Environment of one `InvokeByPortForward` call: outcomes of the external
stages in source order — `GetKubeConfigClient`, `GetAppPod`, the k8s client
construction inside `NewPortForward`, `Init`, and the HTTP exchange. -/
structure InvokeEnv where
  kube : Option GoErr
  resolve : Except GoErr AppPod
  clientErr : Option GoErr
  initEnv : InitEnv
  http : HttpOutcome
deriving Repr

/-- Observable trace of one `InvokeByPortForward` call: the returned (body,
error) pair, whether `portForward.Stop()` ran, and whether `NewPortForward`
was ever reached. -/
structure InvokeTrace where
  body : Bytes
  err : Option GoErr
  stopCalled : Bool
  constructed : Bool
deriving DecidableEq, Repr

/-- Go `InvokeByPortForward`, line by line: kube config, resolution and
construction errors return early; when `Init` returns nil the function runs
the HTTP exchange and returns from inside the `if` block without ever calling
`Stop()`; when `Init` returns an error the function calls `portForward.Stop()`
and returns `("", nil)`. -/
def InvokeByPortForward (pluginID method : String) (data : Bytes) (verb : String)
    (env : InvokeEnv) : InvokeTrace :=
  match env.kube with
  | some e => ⟨[], some ("get kube config error: " ++ e), false, false⟩
  | none =>
    match env.resolve with
    | .error e => ⟨[], some e, false, false⟩
    | .ok app =>
      match NewPortForward env.clientErr app.Namespace app.PodName "127.0.0.1" 0 app.HTTPPort false with
      | .error e => ⟨[], some e, false, true⟩
      | .ok pf =>
        match pf.Init env.initEnv with
        | (_, some _) => ⟨[], none, true, true⟩
        | (_, none) =>
          let re : Bytes × Option GoErr :=
            match env.http with
            | .reqErr e => ([], some ("error creat http request: " ++ e))
            | .doErr e => ([], some ("error do http request: " ++ e))
            | .resp bodyRead =>
              match handleResponse bodyRead with
              | .error e => ([], some e)
              | .ok b => (b, none)
          ⟨re.1, re.2, false, true⟩

/-- Outcome of the websocket dial in `WebsocketByPortForward`: dial failure,
or a connection whose write result and read trace are given. -/
inductive WsConnectOutcome where
  | dialErr (e : GoErr)
  | connected (writeRes : Option GoErr) (reads : List ReadResult)
deriving Repr

/-- Environment of one `WebsocketByPortForward` call. -/
structure WsEnv where
  kube : Option GoErr
  resolve : Except GoErr AppPod
  clientErr : Option GoErr
  initEnv : InitEnv
  conn : WsConnectOutcome
deriving Repr

/-- Go `WebsocketByPortForward`, line by line: `getPortforward` errors return
early; when `Init` returns an error the function skips the block and returns
`("", nil)` without calling `Stop()`; otherwise `Stop()` is deferred, the
dial happens, one text frame is written and the receive loop runs. -/
def WebsocketByPortForward (pluginID method : String) (data : Bytes)
    (env : WsEnv) : WsTrace :=
  match getPortforward pluginID env.kube env.resolve env.clientErr with
  | (.error e, _) => ⟨.returned [] (some e), [], [], false⟩
  | (.ok pf, _) =>
    match pf.Init env.initEnv with
    | (_, some _) => ⟨.returned [] none, [], [], false⟩
    | (_, none) =>
      match env.conn with
      | .dialErr e => ⟨.returned [] (some ("connect error: " ++ e)), [], [], true⟩
      | .connected writeRes reads => wsAfterConnect data writeRes reads

/-- Substring containment on strings, used to state that an error message
mentions an identifier. -/
def strContains (hay needle : String) : Prop :=
  ∃ pre post : List Char, hay.toList = pre ++ needle.toList ++ post

/-- Sample resolved pod in the running phase, used for concrete evaluations. -/
def corePod : AppPod :=
  { AppID := "core", Namespace := "default", PodName := "core-0",
    HTTPPort := 3500, AppPort := 8080, phase := .Running }

/-- Sample resolved pod that is not running. -/
def ghostPod : AppPod :=
  { AppID := "ghost", Namespace := "default", PodName := "ghost-0",
    HTTPPort := 3500, AppPort := 8080, phase := .Pending }

/-- Sample freshly constructed session (open stop channel). -/
def examplePF : PortForward :=
  { Method := "POST", Namespace := "default", PodName := "core-0",
    Host := "127.0.0.1", LocalPort := 0, RemotePort := 3500,
    EmitLogs := false, StopCh := ⟨false⟩ }

/-- The sample session after one `Stop()` call closed its stop channel. -/
def examplePFStopped : PortForward :=
  { examplePF with StopCh := ⟨true⟩ }

/-! ## Helper lemmas -/

/-- Surfaced data of the receive loop: exactly the classified frames of the
successfully read pairs before the first read error. -/
theorem wsReceiveLoop_surfaced (rs : List ReadResult) :
    (wsReceiveLoop rs).1 = (okFrames rs).filterMap (fun f => classifyFrame f.1 f.2) := by
  induction rs with
  | nil => rfl
  | cons r rest ih =>
    cases r with
    | error e => rfl
    | ok f =>
      obtain ⟨mt, md⟩ := f
      cases hc : classifyFrame mt md <;>
        simp [wsReceiveLoop, okFrames, List.filterMap_cons, hc, ih]

/-- An error-free read trace leaves the receive loop without a result: no
successfully classified frame makes it return. -/
theorem wsReceiveLoop_all_ok (oks : List (Int × Bytes)) :
    (wsReceiveLoop (oks.map Except.ok)).2 = none := by
  induction oks with
  | nil => rfl
  | cons f tl ih =>
    obtain ⟨mt, md⟩ := f
    simp [wsReceiveLoop, ih]

/-- The first read error ends the receive loop with that error wrapped. -/
theorem wsReceiveLoop_first_error (oks : List (Int × Bytes)) (e : GoErr)
    (rest : List ReadResult) :
    (wsReceiveLoop (oks.map Except.ok ++ Except.error e :: rest)).2 =
      some ("websocket read error: " ++ e) := by
  induction oks with
  | nil => rfl
  | cons f tl ih =>
    obtain ⟨mt, md⟩ := f
    simp [wsReceiveLoop, ih]

/-! ## Claims -/

/-- C1 counterexample: on the sample fresh session, the first `Stop()` call
closes the stop channel, and an immediately following second `Stop()` call
hits Go's close-of-closed-channel runtime panic — a fault, not a no-op. -/
theorem stop_second_call_panics :
    examplePF.Stop = StopResult.ok examplePFStopped ∧
    examplePFStopped.Stop = StopResult.panicked := by
  constructor <;> rfl

/-- C1 (amended): for every session whose stop channel has not been closed
yet, the first `Stop()` call signals (closes) the stop channel, and a second
sequential `Stop()` call panics on the double-close — `Stop` is not
idempotent. -/
theorem stop_signals_then_second_call_faults (pf : PortForward)
    (h : pf.StopCh.closed = false) :
    pf.Stop = StopResult.ok { pf with StopCh := ⟨true⟩ } ∧
    PortForward.Stop { pf with StopCh := ⟨true⟩ } = StopResult.panicked := by
  refine ⟨?_, rfl⟩
  simp [PortForward.Stop, GoChan.close, h]

/-- Witness for the C1 amended theorem at the sample fresh session. -/
theorem stop_signals_then_second_call_faults_witness :
    examplePF.StopCh.closed = false ∧
    (examplePF.Stop = StopResult.ok { examplePF with StopCh := ⟨true⟩ } ∧
      PortForward.Stop { examplePF with StopCh := ⟨true⟩ } = StopResult.panicked) :=
  ⟨rfl, stop_signals_then_second_call_faults examplePF rfl⟩

/-- C2 (code bug): when `Init()` fails, both `InvokeByPortForward` and
`WebsocketByPortForward` discard the Init error and return `("", nil)` — the
error is swallowed rather than propagated with a stage label.  Evaluated at a
concrete failing input (dial refused during forwarding). -/
theorem init_error_swallowed :
    InvokeByPortForward "core" "status" [] "GET"
      ⟨none, .ok corePod, none, .run (.failure "dial refused"), .resp (.ok [])⟩ =
      ⟨[], none, true, true⟩ ∧
    WebsocketByPortForward "core" "watch" []
      ⟨none, .ok corePod, none, .run (.failure "dial refused"), .connected none []⟩ =
      ⟨.returned [] none, [], [], false⟩ := by
  constructor <;> rfl

/-- C3: `Init` races readiness against failure.  When the ready signal wins
and the port read-back succeeds, the bound local/remote ports are stored into
the session and Init returns nil; when the forwarding goroutine fails first,
Init returns that error immediately with the session untouched, and the ready
signal has not fired. -/
theorem init_ready_failure_race (pf : PortForward) :
    (∀ lp rp : Int, pf.Init (.run (.ready (.ok lp rp))) =
        ({ pf with LocalPort := lp, RemotePort := rp }, none)) ∧
    (∀ e : GoErr, pf.Init (.run (.failure e)) = (pf, some e) ∧
        (ForwardEvent.failure e).readyFired = false) :=
  ⟨fun _ _ => rfl, fun _ => ⟨rfl, rfl⟩⟩

/-- C4: the relay URLs have exactly the fixed formats of the spec —
`http://127.0.0.1:<local-port>/v<api-version>/invoke/<app-id>/method/<method>`
and `ws://127.0.0.1:<local-port>/<method>` — shown by refining the source
constructors against the spec-side targets and by a concrete rendering. -/
theorem relay_url_formats (apiVersion method : String) (app : AppPod)
    (pf : PortForward) :
    makeEndpoint apiVersion app pf method =
      specHttpTarget pf.LocalPort apiVersion app.AppID method ∧
    makeWsEndpoint pf method = specWsTarget pf.LocalPort method ∧
    makeEndpoint "1" corePod { examplePF with LocalPort := 8080 } "status" =
      "http://127.0.0.1:8080/v1/invoke/core/method/status" ∧
    makeWsEndpoint { examplePF with LocalPort := 8080 } "status" =
      "ws://127.0.0.1:8080/status" :=
  ⟨rfl, rfl, by decide, by decide⟩

/-- C5: a successfully read response body is returned in full with no
transformation; the empty body yields the empty string with a nil error.  The
direct `invoke` path treats its raw body the same way. -/
theorem response_body_passthrough (rb : Bytes) :
    handleResponse (.ok rb) = .ok rb ∧
    handleResponse (.ok []) = .ok [] ∧
    invoke (.ok ()) (.ok rb) = .ok rb ∧
    invoke (.ok ()) (.ok []) = .ok [] := by
  refine ⟨?_, rfl, ?_, rfl⟩ <;> cases rb <;> simp [handleResponse, invoke]

/-- C6: after a successful connect, the relay sends exactly one outbound text
frame carrying the caller payload before entering the receive loop, and each
inbound frame is classified by kind — text surfaced as a string, binary as
raw bytes, close/ping/pong observed but not surfaced as data. -/
theorem ws_single_send_and_frame_classification (data md : Bytes)
    (reads : List ReadResult) :
    (wsAfterConnect data none reads).sent = [⟨TextMessage, data⟩] ∧
    (wsAfterConnect data none reads).surfaced =
      (okFrames reads).filterMap (fun f => classifyFrame f.1 f.2) ∧
    classifyFrame TextMessage md = some (.text md) ∧
    classifyFrame BinaryMessage md = some (.binary md) ∧
    classifyFrame CloseMessage md = none ∧
    classifyFrame PingMessage md = none ∧
    classifyFrame PongMessage md = none := by
  refine ⟨?_, ?_, rfl, rfl, rfl, rfl, rfl⟩ <;>
    cases h : (wsReceiveLoop reads).2 <;>
    simp [wsAfterConnect, h, wsReceiveLoop_surfaced]

/-- C7: the receive loop never terminates except on a read error: an
error-free read trace leaves the loop (and the call) still blocked, and the
first read error ends the loop with exactly that error, wrapped, returned to
the caller. -/
theorem ws_loop_ends_only_on_read_error (oks : List (Int × Bytes)) (e : GoErr)
    (rest : List ReadResult) (data : Bytes) :
    (wsReceiveLoop (oks.map Except.ok)).2 = none ∧
    (wsAfterConnect data none (oks.map Except.ok)).outcome = .blocked ∧
    (wsReceiveLoop (oks.map Except.ok ++ Except.error e :: rest)).2 =
      some ("websocket read error: " ++ e) ∧
    (wsAfterConnect data none (oks.map Except.ok ++ Except.error e :: rest)).outcome =
      .returned [] (some ("websocket read error: " ++ e)) := by
  refine ⟨wsReceiveLoop_all_ok oks, ?_, wsReceiveLoop_first_error oks e rest, ?_⟩ <;>
    simp [wsAfterConnect, wsReceiveLoop_all_ok, wsReceiveLoop_first_error]

/-- C8: when resolution fails (the resolver's error carries the identifier,
per the spec) or the resolved pod is not in the running phase, the
tunnel-acquisition path returns an error mentioning that identifier and never
reaches `NewPortForward` (no session constructed); the invoke entry point
likewise returns the resolution error before constructing anything. -/
theorem acquisition_failure_mentions_id_no_session (pluginID : String)
    (clientErr : Option GoErr) :
    (∀ e : GoErr, strContains e pluginID →
        getPortforward pluginID none (.error e) clientErr = (.error e, false) ∧
        strContains e pluginID) ∧
    (∀ app : AppPod, app.phase ≠ .Running →
        getPortforward pluginID none (.ok app) clientErr =
          (.error ("no running pods found for " ++ pluginID), false) ∧
        strContains ("no running pods found for " ++ pluginID) pluginID) ∧
    (∀ (e : GoErr) (method verb : String) (data : Bytes) (ie : InitEnv)
        (hp : HttpOutcome),
        InvokeByPortForward pluginID method data verb ⟨none, .error e, clientErr, ie, hp⟩ =
          ⟨[], some e, false, false⟩) := by
  refine ⟨fun e h => ⟨rfl, h⟩, fun app h => ⟨?_, ?_⟩, fun _ _ _ _ _ _ => rfl⟩
  · simp [getPortforward, h]
  · exact ⟨"no running pods found for ".toList, [], by simp⟩

/-- Witness for C8 at the concrete identifier "ghost": a resolution error
carrying the name, and a resolved pod stuck in the pending phase. -/
theorem acquisition_failure_mentions_id_no_session_witness :
    (getPortforward "ghost" none (.error "pod ghost not found") none =
        (.error "pod ghost not found", false) ∧
      strContains "pod ghost not found" "ghost") ∧
    (getPortforward "ghost" none (.ok ghostPod) none =
        (.error ("no running pods found for " ++ "ghost"), false) ∧
      strContains ("no running pods found for " ++ "ghost") "ghost") :=
  ⟨(acquisition_failure_mentions_id_no_session "ghost" none).1 "pod ghost not found"
      ⟨"pod ".toList, " not found".toList, by decide⟩,
    (acquisition_failure_mentions_id_no_session "ghost" none).2.1 ghostPod (by decide)⟩

/-- C9: when the ready signal fires but the port read-back fails, `Init`
still returns nil and the session's `LocalPort` and `RemotePort` keep their
pre-call values — in particular a requested local port of 0 stays 0, so a nil
return does not guarantee the stored local port is the real bound port. -/
theorem init_nil_despite_port_readback_failure (pf : PortForward) (e : GoErr) :
    pf.Init (.run (.ready (.err e))) = (pf, none) ∧
    (PortForward.Init { pf with LocalPort := 0 } (.run (.ready (.err e)))).1.LocalPort = 0 :=
  ⟨rfl, rfl⟩

/-- C10: `Stop()` runs in `InvokeByPortForward` exactly on the path where
`Init()` fails: the stop flag of the trace equals "kube config obtained, pod
resolved, session constructed, and Init failed"; in particular every return
path of a successful Init (request construction error, request execution
error, response handling) leaves the stop channel unclosed. -/
theorem stop_called_only_on_init_failure (pluginID method verb : String)
    (data : Bytes) (env : InvokeEnv) :
    (InvokeByPortForward pluginID method data verb env).stopCalled =
      (env.kube.isNone && env.resolve.isOk && env.clientErr.isNone &&
        env.initEnv.fails) := by
  obtain ⟨k, r, c, ie, hp⟩ := env
  rcases k with _ | e₁ <;> rcases r with e₂ | app <;> rcases c with _ | e₃ <;>
    rcases ie with e₄ | e₄ | ((⟨lp, rp⟩ | e₅) | e₆) <;> rfl

end TkeelCli
